import Mathlib

/-!
Shallow embedding of the Excel integration service (`app.py`) and proofs
about its JSON encoder, resource locator and the two data endpoints.

Python values reaching the JSON encoder are modelled by `PyVal`;
machine floating-point payloads are carried as the exact rational value
they denote, and the lossy `float(Decimal)` conversion is kept abstract
as a function parameter of the encoder.  Flask request handlers become
total Lean functions from an explicit environment (the state of the
automation host) and a structured request to a structured response.
-/

namespace ExcelApi

/-- Naive date-time record mirroring the fields of `datetime.datetime`
(and `pandas.Timestamp`) that `isoformat` renders at second resolution
(sub-second fields of zero are not printed by `isoformat`). -/
structure DateTime where
  year : Nat
  month : Nat
  day : Nat
  hour : Nat
  minute : Nat
  second : Nat
deriving DecidableEq, Repr

/-- Invariants Python's `datetime` constructor enforces on its fields. -/
def DateTime.valid (d : DateTime) : Prop :=
  1 ≤ d.year ∧ d.year ≤ 9999 ∧ 1 ≤ d.month ∧ d.month ≤ 12 ∧
  1 ≤ d.day ∧ d.day ≤ 31 ∧ d.hour ≤ 23 ∧ d.minute ≤ 59 ∧ d.second ≤ 59

instance (d : DateTime) : Decidable d.valid := by
  unfold DateTime.valid
  infer_instance

mutual

/-- Numeric `numpy.ndarray` contents: a scalar (0-dimensional array) or a
nested sequence of sub-arrays, as produced and consumed by `tolist`. -/
inductive NDArr : Type where
  | scalar : ℚ → NDArr
  | arr : NDList → NDArr
deriving DecidableEq, Repr

/-- A list of sub-arrays (spelled out mutually so that structural
recursion over nested arrays stays elementary). -/
inductive NDList : Type where
  | nil : NDList
  | cons : NDArr → NDList → NDList
deriving DecidableEq, Repr

end

mutual

/-- JSON-native values: exactly what `json.JSONEncoder` can serialize
without consulting the `default` hook. -/
inductive JVal : Type where
  | jnull : JVal
  | jint : Int → JVal
  | jnum : ℚ → JVal
  | jstr : String → JVal
  | jarr : JList → JVal
deriving DecidableEq, Repr

/-- A list of JSON values. -/
inductive JList : Type where
  | nil : JList
  | cons : JVal → JList → JList
deriving DecidableEq, Repr

end

/-- Python runtime values that can reach `RobustJSONEncoder.default`.
Floating payloads are the exact rationals the machine numbers denote;
`naSentinel` stands for the missing-data objects that only `pd.isna`
recognises (for example `pandas.NA`); `other` is any object outside the
dispatch table, which the fallback `super().default` rejects. -/
inductive PyVal : Type where
  | pyStr : String → PyVal
  | pyInt : Int → PyVal
  | npInt : Int → PyVal
  | npFloat : ℚ → PyVal
  | ndarray : NDArr → PyVal
  | pydatetime : DateTime → PyVal
  | pdTimestamp : DateTime → PyVal
  | decimal : ℚ → PyVal
  | naSentinel : PyVal
  | other : String → PyVal
deriving DecidableEq, Repr

/-- Input categories of the encoder's dispatch table. -/
inductive TCat : Type where
  | extInt
  | extFloat
  | ndarr
  | dateTime
  | dec
  | naCat
deriving DecidableEq, Repr

/-- Category membership tests, one per `isinstance`/`pd.isna` check in
`RobustJSONEncoder.default`. -/
def catPred : TCat → PyVal → Bool
  | .extInt, .npInt _ => true
  | .extFloat, .npFloat _ => true
  | .ndarr, .ndarray _ => true
  | .dateTime, .pydatetime _ => true
  | .dateTime, .pdTimestamp _ => true
  | .dec, .decimal _ => true
  | .naCat, .naSentinel => true
  | _, _ => false

/-- Order in which `RobustJSONEncoder.default` (app.py lines 17-28)
actually performs its checks: `np.integer`, `np.floating`, `np.ndarray`,
`(datetime, pd.Timestamp)`, `Decimal`, `pd.isna`. -/
def codeCheckOrder : List TCat :=
  [.extInt, .extFloat, .ndarr, .dateTime, .dec, .naCat]

/-- Order claimed by the specification's dispatch table (section 4.1):
integer, float, decimal, array, date/time, missing sentinel.  Stated
from the spec's words, to be compared with `codeCheckOrder`. -/
def specCheckOrder : List TCat :=
  [.extInt, .extFloat, .dec, .ndarr, .dateTime, .naCat]

mutual

/-- Model of `numpy.ndarray.tolist`: nested Python lists of numbers,
which serialize as nested JSON arrays. -/
def NDArr.tolist : NDArr → JVal
  | .scalar q => .jnum q
  | .arr l => .jarr l.tolist

/-- Element-wise `tolist` on a list of sub-arrays. -/
def NDList.tolist : NDList → JList
  | .nil => .nil
  | .cons a l => .cons a.tolist l.tolist

end

/-- Decimal digit character, as produced by Python's zero-padded
formatting of date-time components. -/
def digitChar (k : Nat) : Char :=
  Char.ofNat (48 + k)

/-- Two-digit zero-padded rendering used for month, day, hour, minute,
second (and for each half of the four-digit year). -/
def pad2 (n : Nat) : List Char :=
  [digitChar (n / 10), digitChar (n % 10)]

/-- Model of `datetime.isoformat()` at second resolution:
`YYYY-MM-DDTHH:MM:SS`. -/
def DateTime.isoformat (d : DateTime) : String :=
  String.mk (pad2 (d.year / 100) ++ pad2 (d.year % 100) ++ '-' :: pad2 d.month ++
    '-' :: pad2 d.day ++ 'T' :: pad2 d.hour ++ ':' :: pad2 d.minute ++
    ':' :: pad2 d.second)

/-- Embedding of `RobustJSONEncoder.default` (app.py lines 16-29): the
`isinstance` chain in source order, first match wins, falling through to
`super().default`, which raises `TypeError` for every object handed to
the hook.  The precision-lossy `float(Decimal)` conversion is supplied
as the abstract parameter `decToFloat`. -/
def RobustJSONEncoder.default (decToFloat : ℚ → ℚ) : PyVal → Except String JVal
  | .npInt n => .ok (.jint n)
  | .npFloat q => .ok (.jnum q)
  | .ndarray a => .ok a.tolist
  | .pydatetime d => .ok (.jstr d.isoformat)
  | .pdTimestamp d => .ok (.jstr d.isoformat)
  | .decimal q => .ok (.jnum (decToFloat q))
  | .naSentinel => .ok .jnull
  | _ => .error "Object of unsupported type is not JSON serializable"

/-- Output of the matched category, given the payload of the value. -/
def catOutput (decToFloat : ℚ → ℚ) : TCat → PyVal → JVal
  | .extInt, .npInt n => .jint n
  | .extFloat, .npFloat q => .jnum q
  | .ndarr, .ndarray a => a.tolist
  | .dateTime, .pydatetime d => .jstr d.isoformat
  | .dateTime, .pdTimestamp d => .jstr d.isoformat
  | .dec, .decimal q => .jnum (decToFloat q)
  | .naCat, _ => .jnull
  | _, _ => .jnull

/-- First-match dispatch over an explicit check order. -/
def dispatchBy (decToFloat : ℚ → ℚ) (order : List TCat) (v : PyVal) :
    Except String JVal :=
  match order.find? (fun c => catPred c v) with
  | some c => .ok (catOutput decToFloat c v)
  | none => .error "Object of unsupported type is not JSON serializable"

/-! ### A deserializer, to state the round-trip property of the encoder -/

/-- Numeric value of a decimal digit character. -/
def charDigitVal (c : Char) : Nat :=
  c.toNat - 48

/-- Read back a two-digit zero-padded component. -/
def parse2 (c1 c2 : Char) : Nat :=
  10 * charDigitVal c1 + charDigitVal c2

/-- Parse an ISO-8601 `YYYY-MM-DDTHH:MM:SS` string back into its
date-time components. -/
def parseIso (s : String) : Option DateTime :=
  match s.data with
  | [y1, y2, y3, y4, '-', m1, m2, '-', d1, d2, 'T', h1, h2, ':', n1, n2,
     ':', s1, s2] =>
    some ⟨100 * parse2 y1 y2 + parse2 y3 y4, parse2 m1 m2, parse2 d1 d2,
      parse2 h1 h2, parse2 n1 n2, parse2 s1 s2⟩
  | _ => none

mutual

/-- Read a nested JSON array of numbers back into an `NDArr`. -/
def decodeND : JVal → Option NDArr
  | .jnum q => some (.scalar q)
  | .jarr l =>
    match decodeNDL l with
    | some xs => some (.arr xs)
    | none => none
  | _ => none

/-- Element-wise array decoding. -/
def decodeNDL : JList → Option NDList
  | .nil => some .nil
  | .cons x l =>
    match decodeND x, decodeNDL l with
    | some a, some xs => some (.cons a xs)
    | _, _ => none

end

/-- The mathematical value a supported encoder input represents: an
integer, an exact number, a nested numeric array, a point in time, or
missingness.  A 0-dimensional array represents the number it wraps
(`tolist` returns a bare scalar for it), and `pydatetime`/`pdTimestamp`
carrying the same components represent the same point in time. -/
inductive ReprVal : Type where
  | rint : Int → ReprVal
  | rnum : ℚ → ReprVal
  | rarr : NDList → ReprVal
  | rdt : DateTime → ReprVal
  | rna : ReprVal
deriving DecidableEq, Repr

/-- Represented value of a supported encoder input (`none` for inputs
outside the dispatch table). -/
def representedValue : PyVal → Option ReprVal
  | .npInt n => some (.rint n)
  | .npFloat q => some (.rnum q)
  | .ndarray (.scalar q) => some (.rnum q)
  | .ndarray (.arr l) => some (.rarr l)
  | .pydatetime d => some (.rdt d)
  | .pdTimestamp d => some (.rdt d)
  | .decimal q => some (.rnum q)
  | .naSentinel => some .rna
  | _ => none

/-- Deserialization: map a JSON-native value back to the represented
value it encodes. -/
def decodeVal : JVal → Option ReprVal
  | .jnull => some .rna
  | .jint n => some (.rint n)
  | .jnum q => some (.rnum q)
  | .jstr s =>
    match parseIso s with
    | some d => some (.rdt d)
    | none => none
  | .jarr l =>
    match decodeNDL l with
    | some xs => some (.rarr xs)
    | none => none

/-- Inputs the encoder's dispatch table supports. -/
def encoderSupported : PyVal → Bool
  | .npInt _ => true
  | .npFloat _ => true
  | .ndarray _ => true
  | .pydatetime _ => true
  | .pdTimestamp _ => true
  | .decimal _ => true
  | .naSentinel => true
  | _ => false

/-- Date-time payload validity (vacuous for non-temporal values). -/
def dtValid : PyVal → Prop
  | .pydatetime d => d.valid
  | .pdTimestamp d => d.valid
  | _ => True

/-- Decimal inputs: the one category whose conversion is lossy. -/
def isDecimalVal : PyVal → Bool
  | .decimal _ => true
  | _ => false

/-! ### The resource locator (app.py lines 33-61) -/

/-- Outcome of a dictionary-style lookup on the automation binding: the
target was found, a `KeyError` said the name is absent, or the lookup
itself raised some other exception (for example on a malformed name).
The source catches the last two with the same `except Exception`. -/
inductive LookupOutcome (α : Type) : Type where
  | found : α → LookupOutcome α
  | keyAbsent : LookupOutcome α
  | otherError : LookupOutcome α

/-- Python truthiness of an optional string argument (`if sheet_name:`
is false for both `None` and the empty string). -/
def optTruthy : Option String → Bool
  | none => false
  | some s => !s.isEmpty

/-- Tabular data extracted from a used range by
`used_range.options(pd.DataFrame, header=1, index=False).value`: the
header row becomes `columns` and the remaining rows become `rows`
(indexed by the default 0-based range index). -/
structure DataFrame where
  columns : List String
  rows : List (List PyVal)

/-- Model of `df.empty`: true when either axis has length zero. -/
def DataFrame.empty (df : DataFrame) : Bool :=
  df.rows.isEmpty || df.columns.isEmpty

/-- Model of `df.to_dict(\x27records\x27)`: one column-name-to-value
record per row. -/
def DataFrame.records (df : DataFrame) : List (List (String × PyVal)) :=
  df.rows.map (fun r => df.columns.zip r)

/-- A used range: a top-left anchor (1-based `row`/`column`) plus the
tabular conversion of its value grid (`none` when the conversion
returns no frame). -/
structure UsedRange where
  row : Nat
  column : Nat
  df : Option DataFrame

/-- The value written by `worksheet.range(addr).value = v`: a scalar
(possibly `None`) for `write_cell` or a grid for `write_range`. -/
inductive RangeValue : Type where
  | scalar : Option PyVal → RangeValue
  | grid : List (List PyVal) → RangeValue
deriving DecidableEq, Repr

/-- A worksheet of the automation host: its name, its used range
(`None` when the sheet is blank), and an oracle describing whether an
assignment to a given address raises (`some errMsg`) or succeeds. -/
structure Worksheet where
  name : String
  usedRange : Option UsedRange
  rangeWrite : String → RangeValue → Option String

/-- A workbook: its name, named sheet lookup (`workbook.sheets[name]`)
and the active sheet (`workbook.sheets.active`, `none` when that call
raises or there is none). -/
structure Workbook where
  name : String
  sheetByName : String → LookupOutcome Worksheet
  activeSheet : Option Worksheet

/-- The automation application: named workbook lookup
(`excel_app.books[name]`) and the active workbook
(`excel_app.books.active`). -/
structure ExcelApp where
  bookByName : String → LookupOutcome Workbook
  activeBook : Option Workbook

/-- Embedding of `get_active_workbook` (app.py lines 40-49) for a
non-`None` application handle: `app.books.active`, absorbing exceptions
into absence. -/
def get_active_workbook (excelApp : ExcelApp) : Option Workbook :=
  excelApp.activeBook

/-- Embedding of `get_worksheet` (app.py lines 51-61): named lookup
when a truthy name is given (any exception, `KeyError` or not, becomes
`None`), otherwise the active sheet. -/
def get_worksheet (workbook : Workbook) (sheetName : Option String) :
    Option Worksheet :=
  if optTruthy sheetName then
    match workbook.sheetByName (sheetName.getD "") with
    | .found ws => some ws
    | .keyAbsent => none
    | .otherError => none
  else
    workbook.activeSheet

/-- Workbook resolution step shared by both data handlers (app.py lines
93-101 and 165-173): named lookup with every exception mapped to the
same 404, otherwise the active workbook. -/
def resolveWorkbook (excelApp : ExcelApp) (workbookName : Option String) :
    Except (Nat × String) Workbook :=
  if optTruthy workbookName then
    match excelApp.bookByName (workbookName.getD "") with
    | .found wb => .ok wb
    | .keyAbsent =>
      .error (404, "Workbook \x27" ++ workbookName.getD "" ++ "\x27 not found")
    | .otherError =>
      .error (404, "Workbook \x27" ++ workbookName.getD "" ++ "\x27 not found")
  else
    match get_active_workbook excelApp with
    | some wb => .ok wb
    | none => .error (404, "No active workbook found")

/-- Application, workbook and worksheet resolution sequence shared
verbatim by `get_excel_data` (lines 88-109) and `write_excel_data`
(lines 160-181); the error carries the HTTP status and message of the
response that aborts the request. -/
def resolveWorksheetChain (excelApp? : Option ExcelApp)
    (workbookName sheetName : Option String) :
    Except (Nat × String) (Workbook × Worksheet) :=
  match excelApp? with
  | none => .error (503, "No Excel application running")
  | some excelApp =>
    match resolveWorkbook excelApp workbookName with
    | .error e => .error e
    | .ok workbook =>
      match get_worksheet workbook sheetName with
      | some worksheet => .ok (workbook, worksheet)
      | none =>
        if optTruthy sheetName then
          .error (404, "Sheet \x27" ++ sheetName.getD "" ++
            "\x27 not found in workbook \x27" ++ workbook.name ++ "\x27")
        else
          .error (404, "No active worksheet found")

/-! ### The tabular read handler (app.py lines 79-146) -/

/-- Query parameters of `GET /api/excel-data`. -/
structure ReadRequest where
  workbook : Option String
  sheet : Option String
  include_cell_mapping : Option String

/-- Model of Python's `str.lower()` (ASCII case folding; the values
compared against are plain ASCII). -/
def pyLower (s : String) : String :=
  String.mk (s.data.map Char.toLower)

/-- Line 86: the cell-mapping flag is
`request.args.get(\x27include_cell_mapping\x27, \x27true\x27).lower() == \x27true\x27`. -/
def parseCellMappingFlag (v : Option String) : Bool :=
  pyLower (v.getD "true") == "true"

/-- Structural worker for `intToColLetter`: the first argument is fuel
bounding the recursion depth (the encoded number never exceeds it, and
it shrinks 26-fold per letter). -/
def intToColLetterAux : Nat → Nat → String
  | 0, _ => ""
  | _ + 1, 0 => ""
  | fuel + 1, n + 1 =>
    intToColLetterAux fuel (n / 26) ++ String.mk [Char.ofNat (65 + n % 26)]

/-- Model of `xlwings.utils.int_to_col_letter`, the external helper the
handler calls: standard bijective base-26 column letters
(1 → A, 26 → Z, 27 → AA). -/
def intToColLetter (n : Nat) : String :=
  intToColLetterAux n n

/-- The cell-mapping dictionary built in lines 132-139, as its ordered
list of insertions: for record `i` and column position `j`, the address
of anchor column plus `j` and anchor row plus `i` plus `1` (the header
row occupies the anchor row) maps to the record's value there.  With
the column labels unique, `row[col]` is the `j`-th entry of row `i`;
all generated addresses are distinct, so the dictionary holds exactly
these pairs. -/
def buildCellMapping (startRow startCol : Nat) (df : DataFrame) :
    List (String × PyVal) :=
  (List.range df.rows.length).flatMap (fun i =>
    (List.range df.columns.length).map (fun j =>
      (intToColLetter (startCol + j) ++ toString (startRow + i + 1),
        (df.rows.getD i []).getD j .naSentinel)))

/-- Responses of `GET /api/excel-data`: an error status with a message,
or the 200 body `{workbook, sheet, data, shape, cell_mapping?}`. -/
inductive ReadResponse : Type where
  | fail : Nat → String → ReadResponse
  | ok : String → String → List (List (String × PyVal)) → Nat × Nat →
      Option (List (String × PyVal)) → ReadResponse

/-- HTTP status of a read response. -/
def ReadResponse.status : ReadResponse → Nat
  | .fail s _ => s
  | .ok _ _ _ _ _ => 200

/-- The cell-mapping field of a read response, when one is present. -/
def ReadResponse.cellMapping : ReadResponse → Option (List (String × PyVal))
  | .fail _ _ => none
  | .ok _ _ _ _ cm => cm

/-- Embedding of `get_excel_data` (app.py lines 79-146). -/
def get_excel_data (excelApp? : Option ExcelApp) (req : ReadRequest) :
    ReadResponse :=
  match resolveWorksheetChain excelApp? req.workbook req.sheet with
  | .error (s, m) => .fail s m
  | .ok (workbook, worksheet) =>
    match worksheet.usedRange with
    | none => .fail 404 "No data found in worksheet"
    | some used_range =>
      match used_range.df with
      | none => .fail 404 "No data found in worksheet"
      | some df =>
        if df.empty then .fail 404 "No data found in worksheet"
        else if parseCellMappingFlag req.include_cell_mapping = true ∧
            df.rows.length ≤ 100 then
          .ok workbook.name worksheet.name df.records
            (df.rows.length, df.columns.length)
            (some (buildCellMapping used_range.row used_range.column df))
        else
          .ok workbook.name worksheet.name df.records
            (df.rows.length, df.columns.length) none

/-! ### The batch write handler (app.py lines 148-222) -/

/-- One entry of the `operations` list: the fields the handler reads
with `.get`, each absent when the client did not send it. -/
structure Operation where
  type : Option String
  cell : Option String
  value : Option PyVal
  range : Option String
  values : Option (List (List PyVal))

/-- Python truthiness of the `values` grid (`not values` is true for
`None` and for an empty list). -/
def valuesTruthy : Option (List (List PyVal)) → Bool
  | none => false
  | some g => !g.isEmpty

/-- Python `str()` of a write value as interpolated into result
messages.  The API receives write values as JSON, so strings and
integers are the shapes that occur; the remaining constructors get a
fixed stand-in rendering. -/
def pyValStr : PyVal → String
  | .pyStr s => s
  | .pyInt n => toString n
  | .npInt n => toString n
  | _ => "<object>"

/-- Interpolation of an optional value: Python renders `None` as the
string `None`. -/
def optValueStr : Option PyVal → String
  | none => "None"
  | some v => pyValStr v

/-- Interpolation of the optional operation type. -/
def optStr : Option String → String
  | none => "None"
  | some s => s

/-- One entry of the `results` list. -/
inductive OpResult : Type where
  | success : String → OpResult
  | error : String → OpResult
deriving DecidableEq, Repr

/-- One iteration of the operations loop (app.py lines 185-217):
the result record appended for the operation, paired with the list of
range assignments attempted (empty when validation rejected the
operation before writing). -/
def processOperation (worksheet : Worksheet) (operation : Operation) :
    OpResult × List (String × RangeValue) :=
  let op_type := operation.type
  if op_type == some "write_cell" then
    let cell := operation.cell
    let value := operation.value
    if !optTruthy cell then
      (.error "Cell address required for write_cell operation", [])
    else
      let c := cell.getD ""
      match worksheet.rangeWrite c (.scalar value) with
      | none =>
        (.success ("Written \x27" ++ optValueStr value ++ "\x27 to cell " ++ c),
          [(c, .scalar value)])
      | some e =>
        (.error ("Failed to write to cell " ++ c ++ ": " ++ e),
          [(c, .scalar value)])
  else if op_type == some "write_range" then
    let range_addr := operation.range
    let values := operation.values
    if !optTruthy range_addr || !valuesTruthy values then
      (.error "Range and values required for write_range operation", [])
    else
      let r := range_addr.getD ""
      let g := values.getD []
      match worksheet.rangeWrite r (.grid g) with
      | none => (.success ("Written data to range " ++ r), [(r, .grid g)])
      | some e =>
        (.error ("Failed to write to range " ++ r ++ ": " ++ e), [(r, .grid g)])
  else
    (.error ("Unknown operation type: " ++ optStr op_type), [])

/-- JSON body of `POST /api/write-excel` (`none` models a request whose
body fails to parse as JSON; an `operations` key bound to a list is
modelled by `some`, an absent key by `none`). -/
structure WriteBody where
  operations : Option (List Operation)
  workbook : Option String
  sheet : Option String

/-- Python truthiness of the body dict: `not data` holds for the empty
dict, the one with every modelled key absent. -/
def WriteBody.falsy (b : WriteBody) : Bool :=
  b.operations.isNone && b.workbook.isNone && b.sheet.isNone

/-- Responses of `POST /api/write-excel`: an error status with a
message, or the 200 body `{results}`. -/
inductive WriteResponse : Type where
  | fail : Nat → String → WriteResponse
  | ok : List OpResult → WriteResponse

/-- HTTP status of a write response. -/
def WriteResponse.status : WriteResponse → Nat
  | .fail s _ => s
  | .ok _ => 200

/-- Embedding of `write_excel_data` (app.py lines 148-222): the
response, paired with the ordered list of range assignments the loop
attempted on the worksheet. -/
def write_excel_data (excelApp? : Option ExcelApp) :
    Option WriteBody → WriteResponse × List (String × RangeValue)
  | none => (.fail 400 "No operations provided", [])
  | some data =>
    if data.falsy || data.operations.isNone then
      (.fail 400 "No operations provided", [])
    else
      let operations := data.operations.getD []
      match resolveWorksheetChain excelApp? data.workbook data.sheet with
      | .error (s, m) => (.fail s m, [])
      | .ok (_, worksheet) =>
        (.ok (operations.map (fun op => (processOperation worksheet op).1)),
          operations.flatMap (fun op => (processOperation worksheet op).2))

/-! ### Concrete host states and requests, for evaluating the model -/

/-- A two-by-two data frame with header row `Name`, `Age`. -/
def dfDemo : DataFrame :=
  { columns := ["Name", "Age"],
    rows := [[.pyStr "Alice", .npInt 25], [.pyStr "Bob", .npInt 30]] }

/-- A used range anchored at A1 holding `dfDemo`. -/
def urDemo : UsedRange :=
  { row := 1, column := 1, df := some dfDemo }

/-- A worksheet whose used range is `urDemo` and whose writes all
succeed. -/
def wsDemo : Worksheet :=
  { name := "Sheet1", usedRange := some urDemo, rangeWrite := fun _ _ => none }

/-- A workbook whose active sheet is `wsDemo`. -/
def wbDemo : Workbook :=
  { name := "Book1.xlsx", sheetByName := fun _ => .keyAbsent,
    activeSheet := some wsDemo }

/-- An application whose active workbook is `wbDemo`. -/
def appDemo : ExcelApp :=
  { bookByName := fun _ => .keyAbsent, activeBook := some wbDemo }

/-- A worksheet with no used range. -/
def wsBlank : Worksheet :=
  { name := "Sheet1", usedRange := none, rangeWrite := fun _ _ => none }

/-- A workbook whose active sheet is the blank `wsBlank`. -/
def wbBlank : Workbook :=
  { name := "Book1.xlsx", sheetByName := fun _ => .keyAbsent,
    activeSheet := some wsBlank }

/-- An application whose active workbook is `wbBlank`. -/
def appBlank : ExcelApp :=
  { bookByName := fun _ => .keyAbsent, activeBook := some wbBlank }

/-- A workbook on which every named sheet lookup raises `KeyError`. -/
def wbKeyAbsent : Workbook :=
  { name := "Book1.xlsx", sheetByName := fun _ => .keyAbsent,
    activeSheet := none }

/-- A workbook on which every named sheet lookup raises an exception
other than `KeyError`. -/
def wbOtherError : Workbook :=
  { name := "Book1.xlsx", sheetByName := fun _ => .otherError,
    activeSheet := none }

/-- An application on which every named workbook lookup raises
`KeyError`. -/
def appKeyAbsent : ExcelApp :=
  { bookByName := fun _ => .keyAbsent, activeBook := none }

/-- An application on which every named workbook lookup raises an
exception other than `KeyError`. -/
def appOtherError : ExcelApp :=
  { bookByName := fun _ => .otherError, activeBook := none }

/-- A read request with no query parameters. -/
def reqDemo : ReadRequest :=
  { workbook := none, sheet := none, include_cell_mapping := none }

/-- A well-formed `write_cell` operation. -/
def opWriteCell : Operation :=
  { type := some "write_cell", cell := some "A1",
    value := some (.pyStr "Test Value"), range := none, values := none }

/-- An operation of an unknown type. -/
def opBogus : Operation :=
  { type := some "bogus", cell := none, value := none, range := none,
    values := none }

/-- A `write_cell` operation whose `value` key is absent. -/
def opCellNoValue : Operation :=
  { type := some "write_cell", cell := some "A1", value := none,
    range := none, values := none }

/-- A write body holding one valid and one bogus operation. -/
def writeBodyDemo : WriteBody :=
  { operations := some [opWriteCell, opBogus], workbook := none, sheet := none }

/-- A write body holding an empty operations list. -/
def writeBodyEmptyOps : WriteBody :=
  { operations := some [], workbook := none, sheet := none }

/-! ### Helper lemmas -/

theorem default_eq_dispatchBy_codeOrder (f : ℚ → ℚ) (v : PyVal) :
    RobustJSONEncoder.default f v = dispatchBy f codeCheckOrder v := by
  cases v <;> rfl

theorem charDigitVal_digitChar {k : Nat} (h : k < 10) :
    charDigitVal (digitChar k) = k := by
  interval_cases k <;> decide

theorem parse2_pad2 {n : Nat} (h : n < 100) :
    parse2 (digitChar (n / 10)) (digitChar (n % 10)) = n := by
  have h1 : n / 10 < 10 := by omega
  have h2 : n % 10 < 10 := Nat.mod_lt _ (by omega)
  unfold parse2
  rw [charDigitVal_digitChar h1, charDigitVal_digitChar h2]
  omega

theorem parseIso_isoformat (d : DateTime) (h : d.valid) :
    parseIso d.isoformat = some d := by
  obtain ⟨y, mo, da, ho, mi, se⟩ := d
  obtain ⟨hy1, hy2, hm1, hm2, hd1, hd2, hh, hn, hs⟩ := h
  dsimp only at hy1 hy2 hm1 hm2 hd1 hd2 hh hn hs
  have key : parseIso (DateTime.isoformat ⟨y, mo, da, ho, mi, se⟩) =
      some ⟨100 * parse2 (digitChar (y / 100 / 10)) (digitChar (y / 100 % 10)) +
        parse2 (digitChar (y % 100 / 10)) (digitChar (y % 100 % 10)),
        parse2 (digitChar (mo / 10)) (digitChar (mo % 10)),
        parse2 (digitChar (da / 10)) (digitChar (da % 10)),
        parse2 (digitChar (ho / 10)) (digitChar (ho % 10)),
        parse2 (digitChar (mi / 10)) (digitChar (mi % 10)),
        parse2 (digitChar (se / 10)) (digitChar (se % 10))⟩ := rfl
  rw [key, parse2_pad2 (show y / 100 < 100 by omega),
    parse2_pad2 (Nat.mod_lt _ (show 0 < 100 by omega)),
    parse2_pad2 (show mo < 100 by omega), parse2_pad2 (show da < 100 by omega),
    parse2_pad2 (show ho < 100 by omega), parse2_pad2 (show mi < 100 by omega),
    parse2_pad2 (show se < 100 by omega)]
  simp only [Option.some.injEq, DateTime.mk.injEq, and_true]
  omega

mutual

theorem decodeND_tolist : ∀ a : NDArr, decodeND a.tolist = some a
  | .scalar _ => rfl
  | .arr l => by
    simp only [NDArr.tolist, decodeND, decodeNDL_tolist l]

theorem decodeNDL_tolist : ∀ l : NDList, decodeNDL l.tolist = some l
  | .nil => rfl
  | .cons a l => by
    simp only [NDList.tolist, decodeNDL, decodeND_tolist a, decodeNDL_tolist l]

end

/-! ### Claim theorems -/

/-- C3, counterexample: the encoder checks its input categories in the
source order integer, float, array, date/time, decimal, NA-sentinel,
which is not the order of the specification's dispatch table (the spec
places the fixed-point decimal third, before arrays and date/times,
whereas the code checks `Decimal` fifth, after `np.ndarray` and the
date/time types). -/
theorem c3_counterexample : codeCheckOrder ≠ specCheckOrder := by
  decide

/-- C3 (amended): `RobustJSONEncoder.default` dispatches first-match
over the category order integer, float, array, date/time, decimal,
NA-sentinel — the source order, not the spec's table order — and maps
each category to the listed output: native integer, native float,
nested sequence of native numbers, ISO-8601 string, native float
(through the lossy conversion `f`), and null respectively. -/
theorem c3_dispatch_order_and_outputs :
    codeCheckOrder =
      [TCat.extInt, TCat.extFloat, TCat.ndarr, TCat.dateTime, TCat.dec,
        TCat.naCat] ∧
    (∀ (f : ℚ → ℚ) (v : PyVal),
      RobustJSONEncoder.default f v = dispatchBy f codeCheckOrder v) ∧
    (∀ (f : ℚ → ℚ) (n : Int),
      RobustJSONEncoder.default f (.npInt n) = .ok (.jint n)) ∧
    (∀ (f : ℚ → ℚ) (q : ℚ),
      RobustJSONEncoder.default f (.npFloat q) = .ok (.jnum q)) ∧
    (∀ (f : ℚ → ℚ) (a : NDArr),
      RobustJSONEncoder.default f (.ndarray a) = .ok a.tolist) ∧
    (∀ (f : ℚ → ℚ) (d : DateTime),
      RobustJSONEncoder.default f (.pydatetime d) = .ok (.jstr d.isoformat)) ∧
    (∀ (f : ℚ → ℚ) (d : DateTime),
      RobustJSONEncoder.default f (.pdTimestamp d) = .ok (.jstr d.isoformat)) ∧
    (∀ (f : ℚ → ℚ) (q : ℚ),
      RobustJSONEncoder.default f (.decimal q) = .ok (.jnum (f q))) ∧
    (∀ f : ℚ → ℚ, RobustJSONEncoder.default f .naSentinel = .ok .jnull) :=
  ⟨rfl, default_eq_dispatchBy_codeOrder, fun _ _ => rfl, fun _ _ => rfl,
    fun _ _ => rfl, fun _ _ => rfl, fun _ _ => rfl, fun _ _ => rfl,
    fun _ => rfl⟩

/-- C8: every supported scalar, array or temporal encoder input is
serialized successfully to a JSON-native value (no fallback
`TypeError`), and deserializing that value recovers the represented
value exactly; fixed-point decimals, whose conversion through `f` may
lose precision, are the one excluded category. -/
theorem c8_encoder_roundtrip (f : ℚ → ℚ) (v : PyVal)
    (hsup : encoderSupported v = true) (hdec : isDecimalVal v = false)
    (hdt : dtValid v) :
    ∃ j r, RobustJSONEncoder.default f v = .ok j ∧
      representedValue v = some r ∧ decodeVal j = some r := by
  cases v with
  | pyStr s => simp [encoderSupported] at hsup
  | pyInt n => simp [encoderSupported] at hsup
  | npInt n => exact ⟨_, _, rfl, rfl, rfl⟩
  | npFloat q => exact ⟨_, _, rfl, rfl, rfl⟩
  | ndarray a =>
    cases a with
    | scalar q => exact ⟨_, _, rfl, rfl, rfl⟩
    | arr l =>
      refine ⟨(NDArr.arr l).tolist, .rarr l, rfl, rfl, ?_⟩
      simp only [NDArr.tolist, decodeVal, decodeNDL_tolist l]
  | pydatetime d =>
    refine ⟨_, .rdt d, rfl, rfl, ?_⟩
    simp only [decodeVal, parseIso_isoformat d hdt]
  | pdTimestamp d =>
    refine ⟨_, .rdt d, rfl, rfl, ?_⟩
    simp only [decodeVal, parseIso_isoformat d hdt]
  | decimal q => simp [isDecimalVal] at hdec
  | naSentinel => exact ⟨_, _, rfl, rfl, rfl⟩
  | other s => simp [encoderSupported] at hsup

/-- C8, witness: the round-trip theorem applied to a concrete
timestamp. -/
theorem c8_encoder_roundtrip_witness :
    encoderSupported (.pydatetime ⟨2023, 1, 1, 12, 0, 0⟩) = true ∧
    isDecimalVal (.pydatetime ⟨2023, 1, 1, 12, 0, 0⟩) = false ∧
    dtValid (.pydatetime ⟨2023, 1, 1, 12, 0, 0⟩) ∧
    ∃ j r,
      RobustJSONEncoder.default id (.pydatetime ⟨2023, 1, 1, 12, 0, 0⟩) =
        .ok j ∧
      representedValue (.pydatetime ⟨2023, 1, 1, 12, 0, 0⟩) = some r ∧
      decodeVal j = some r :=
  ⟨rfl, rfl, show DateTime.valid ⟨2023, 1, 1, 12, 0, 0⟩ by decide,
    c8_encoder_roundtrip id _ rfl rfl
      (show DateTime.valid ⟨2023, 1, 1, 12, 0, 0⟩ by decide)⟩

/-- C9: the cell-mapping flag of `GET /api/excel-data` is true exactly
when the `include_cell_mapping` parameter is absent or lowercases to
the string `true`; other values, such as `1`, `yes` or `true` with
surrounding whitespace, yield false. -/
theorem c9_cell_mapping_flag_parsing :
    (∀ v : Option String, parseCellMappingFlag v = true ↔
      (v = none ∨ ∃ s, v = some s ∧ pyLower s = "true")) ∧
    parseCellMappingFlag none = true ∧
    parseCellMappingFlag (some "TRUE") = true ∧
    parseCellMappingFlag (some "True") = true ∧
    parseCellMappingFlag (some "1") = false ∧
    parseCellMappingFlag (some "yes") = false ∧
    parseCellMappingFlag (some " true") = false := by
  refine ⟨fun v => ?_, by decide, by decide, by decide, by decide, by decide,
    by decide⟩
  cases v with
  | none =>
    simp only [parseCellMappingFlag]
    decide
  | some s => simp [parseCellMappingFlag]

/-- C4: on the success path of `GET /api/excel-data` (resolution
succeeded, the used range exists and converts to a non-empty table):
the handler responds 200 and the response carries a `cell_mapping`
field if and only if the cell-mapping flag parses to true and the table
has at most 100 rows. -/
theorem c4_cell_mapping_presence (excelApp? : Option ExcelApp)
    (req : ReadRequest) (wb : Workbook) (ws : Worksheet) (ur : UsedRange)
    (df : DataFrame)
    (hres : resolveWorksheetChain excelApp? req.workbook req.sheet =
      .ok (wb, ws))
    (hur : ws.usedRange = some ur) (hdf : ur.df = some df)
    (hne : df.empty = false) :
    (get_excel_data excelApp? req).status = 200 ∧
    ((get_excel_data excelApp? req).cellMapping.isSome = true ↔
      (parseCellMappingFlag req.include_cell_mapping = true ∧
        df.rows.length ≤ 100)) := by
  have hmain : get_excel_data excelApp? req =
      if parseCellMappingFlag req.include_cell_mapping = true ∧
          df.rows.length ≤ 100 then
        ReadResponse.ok wb.name ws.name df.records
          (df.rows.length, df.columns.length)
          (some (buildCellMapping ur.row ur.column df))
      else
        ReadResponse.ok wb.name ws.name df.records
          (df.rows.length, df.columns.length) none := by
    unfold get_excel_data
    rw [hres]
    dsimp only
    rw [hur]
    dsimp only
    rw [hdf]
    simp [hne]
  by_cases hc : parseCellMappingFlag req.include_cell_mapping = true ∧
      df.rows.length ≤ 100
  · rw [hmain, if_pos hc]
    exact ⟨rfl, by simp [ReadResponse.cellMapping, hc]⟩
  · rw [hmain, if_neg hc]
    exact ⟨rfl, by simp [ReadResponse.cellMapping, hc]⟩

/-- C4, witness: the presence criterion applied to a concrete host
state with a 2-row table and no `include_cell_mapping` parameter. -/
theorem c4_cell_mapping_presence_witness :
    resolveWorksheetChain (some appDemo) reqDemo.workbook reqDemo.sheet =
      .ok (wbDemo, wsDemo) ∧
    wsDemo.usedRange = some urDemo ∧ urDemo.df = some dfDemo ∧
    dfDemo.empty = false ∧
    ((get_excel_data (some appDemo) reqDemo).status = 200 ∧
      ((get_excel_data (some appDemo) reqDemo).cellMapping.isSome = true ↔
        (parseCellMappingFlag reqDemo.include_cell_mapping = true ∧
          dfDemo.rows.length ≤ 100))) :=
  ⟨rfl, rfl, rfl, rfl,
    c4_cell_mapping_presence (some appDemo) reqDemo wbDemo wsDemo urDemo
      dfDemo rfl rfl rfl rfl⟩

/-- C5: when `GET /api/excel-data` includes a cell mapping, the mapping
is exactly the dictionary built from the used range's anchor: its entry
for record `i` and column position `j` keys the value
`rows[i][j]` under the column letters of `anchor column + j` (standard
bijective base-26 encoding, 1 → A, 26 → Z, 27 → AA) concatenated with
the decimal rendering of `anchor row + i + 1`, and every entry of the
mapping is of that shape. -/
theorem c5_cell_mapping_keys (excelApp? : Option ExcelApp)
    (req : ReadRequest) (wb : Workbook) (ws : Worksheet) (ur : UsedRange)
    (df : DataFrame) (i j : Nat)
    (hres : resolveWorksheetChain excelApp? req.workbook req.sheet =
      .ok (wb, ws))
    (hur : ws.usedRange = some ur) (hdf : ur.df = some df)
    (hne : df.empty = false)
    (hflag : parseCellMappingFlag req.include_cell_mapping = true)
    (hsize : df.rows.length ≤ 100)
    (hi : i < df.rows.length) (hj : j < df.columns.length) :
    (get_excel_data excelApp? req).cellMapping =
      some (buildCellMapping ur.row ur.column df) ∧
    intToColLetter 1 = "A" ∧ intToColLetter 26 = "Z" ∧
    intToColLetter 27 = "AA" ∧
    (intToColLetter (ur.column + j) ++ toString (ur.row + i + 1),
        (df.rows.getD i []).getD j PyVal.naSentinel) ∈
      buildCellMapping ur.row ur.column df ∧
    ∀ p ∈ buildCellMapping ur.row ur.column df,
      ∃ i2 j2, i2 < df.rows.length ∧ j2 < df.columns.length ∧
        p = (intToColLetter (ur.column + j2) ++ toString (ur.row + i2 + 1),
          (df.rows.getD i2 []).getD j2 PyVal.naSentinel) := by
  refine ⟨?_, by decide, by decide, by decide, ?_, ?_⟩
  · unfold get_excel_data
    rw [hres]
    dsimp only
    rw [hur]
    dsimp only
    rw [hdf]
    simp [hne, hflag, hsize, ReadResponse.cellMapping]
  · unfold buildCellMapping
    simp only [List.mem_flatMap, List.mem_map, List.mem_range]
    exact ⟨i, hi, j, hj, rfl⟩
  · intro p hp
    unfold buildCellMapping at hp
    simp only [List.mem_flatMap, List.mem_map, List.mem_range] at hp
    obtain ⟨i2, hi2, j2, hj2, rfl⟩ := hp
    exact ⟨i2, j2, hi2, hj2, rfl⟩

/-- C5, witness: the key and value of record 1, column 1 in the
concrete 2-by-2 table anchored at A1. -/
theorem c5_cell_mapping_keys_witness :
    resolveWorksheetChain (some appDemo) reqDemo.workbook reqDemo.sheet =
      .ok (wbDemo, wsDemo) ∧
    wsDemo.usedRange = some urDemo ∧ urDemo.df = some dfDemo ∧
    dfDemo.empty = false ∧
    parseCellMappingFlag reqDemo.include_cell_mapping = true ∧
    dfDemo.rows.length ≤ 100 ∧ 1 < dfDemo.rows.length ∧
    1 < dfDemo.columns.length ∧
    ((get_excel_data (some appDemo) reqDemo).cellMapping =
        some (buildCellMapping urDemo.row urDemo.column dfDemo) ∧
      intToColLetter 1 = "A" ∧ intToColLetter 26 = "Z" ∧
      intToColLetter 27 = "AA" ∧
      (intToColLetter (urDemo.column + 1) ++ toString (urDemo.row + 1 + 1),
          (dfDemo.rows.getD 1 []).getD 1 PyVal.naSentinel) ∈
        buildCellMapping urDemo.row urDemo.column dfDemo ∧
      ∀ p ∈ buildCellMapping urDemo.row urDemo.column dfDemo,
        ∃ i2 j2, i2 < dfDemo.rows.length ∧ j2 < dfDemo.columns.length ∧
          p = (intToColLetter (urDemo.column + j2) ++
              toString (urDemo.row + i2 + 1),
            (dfDemo.rows.getD i2 []).getD j2 PyVal.naSentinel)) :=
  ⟨rfl, rfl, rfl, rfl, by decide, by decide, by decide, by decide,
    c5_cell_mapping_keys (some appDemo) reqDemo wbDemo wsDemo urDemo dfDemo
      1 1 rfl rfl rfl rfl (by decide) (by decide) (by decide) (by decide)⟩

/-- C6, counterexample: a `KeyError` from a named lookup (the target is
absent) and any other lookup exception produce identical observable
outcomes — `get_worksheet` returns `None` for both, and the workbook
step of the handlers produces the same 404 response for both — so the
two cases are not distinguishable to the caller. -/
theorem c6_counterexample :
    wbKeyAbsent.sheetByName "Data" = .keyAbsent ∧
    wbOtherError.sheetByName "Data" = .otherError ∧
    get_worksheet wbKeyAbsent (some "Data") =
      get_worksheet wbOtherError (some "Data") ∧
    get_worksheet wbKeyAbsent (some "Data") = none ∧
    appKeyAbsent.bookByName "Book2.xlsx" = .keyAbsent ∧
    appOtherError.bookByName "Book2.xlsx" = .otherError ∧
    resolveWorkbook appKeyAbsent (some "Book2.xlsx") =
      resolveWorkbook appOtherError (some "Book2.xlsx") :=
  ⟨rfl, rfl, rfl, rfl, rfl, rfl, rfl⟩

/-- C6 (amended): the named workbook and worksheet lookups absorb a
`KeyError` (target absent) and every other lookup exception into one
and the same signal — `get_worksheet` returns `None`, and the workbook
resolution step returns the same 404 not-found response — so the caller
cannot tell the two apart. -/
theorem c6_lookup_conflates_failures (wb : Workbook) (s : String)
    (hs : s ≠ "")
    (h : wb.sheetByName s = .keyAbsent ∨ wb.sheetByName s = .otherError) :
    get_worksheet wb (some s) = none ∧
    ∀ (a : ExcelApp) (n : String), n ≠ "" →
      (a.bookByName n = .keyAbsent ∨ a.bookByName n = .otherError) →
      resolveWorkbook a (some n) =
        .error (404, "Workbook \x27" ++ n ++ "\x27 not found") := by
  constructor
  · unfold get_worksheet
    have he : s.isEmpty = false := by
      cases he : s.isEmpty
      · rfl
      · exact absurd ((String.isEmpty_iff s).mp he) hs
    have ht : optTruthy (some s) = true := by
      simp [optTruthy, he]
    rw [ht]
    rcases h with h | h <;> simp [h]
  · intro a n hn h2
    unfold resolveWorkbook
    have he : n.isEmpty = false := by
      cases he : n.isEmpty
      · rfl
      · exact absurd ((String.isEmpty_iff n).mp he) hn
    have ht : optTruthy (some n) = true := by
      simp [optTruthy, he]
    rw [ht]
    rcases h2 with h2 | h2 <;> simp [h2]

/-- C6, witness: the amended conflation statement at the concrete
workbooks and applications. -/
theorem c6_lookup_conflates_failures_witness :
    "Data" ≠ "" ∧
    (wbKeyAbsent.sheetByName "Data" = .keyAbsent ∨
      wbKeyAbsent.sheetByName "Data" = .otherError) ∧
    (get_worksheet wbKeyAbsent (some "Data") = none ∧
      ∀ (a : ExcelApp) (n : String), n ≠ "" →
        (a.bookByName n = .keyAbsent ∨ a.bookByName n = .otherError) →
        resolveWorkbook a (some n) =
          .error (404, "Workbook \x27" ++ n ++ "\x27 not found")) :=
  ⟨by decide, Or.inl rfl,
    c6_lookup_conflates_failures wbKeyAbsent "Data" (by decide) (Or.inl rfl)⟩

/-- C7: once resolution of application, workbook and worksheet has
succeeded, an absent used range, an absent table conversion, or an
empty table each make `GET /api/excel-data` respond 404 with the
message `No data found in worksheet`. -/
theorem c7_no_data_404 (excelApp? : Option ExcelApp) (req : ReadRequest)
    (wb : Workbook) (ws : Worksheet)
    (hres : resolveWorksheetChain excelApp? req.workbook req.sheet =
      .ok (wb, ws))
    (hnd : ws.usedRange = none ∨
      (∃ ur, ws.usedRange = some ur ∧ ur.df = none) ∨
      (∃ ur df, ws.usedRange = some ur ∧ ur.df = some df ∧
        df.empty = true)) :
    get_excel_data excelApp? req = .fail 404 "No data found in worksheet" ∧
    (get_excel_data excelApp? req).status = 404 := by
  have hmain :
      get_excel_data excelApp? req = .fail 404 "No data found in worksheet" := by
    unfold get_excel_data
    rw [hres]
    dsimp only
    rcases hnd with h1 | ⟨ur, h1, h2⟩ | ⟨ur, df, h1, h2, h3⟩
    · rw [h1]
    · rw [h1]
      dsimp only
      rw [h2]
    · rw [h1]
      dsimp only
      rw [h2]
      simp [h3]
  exact ⟨hmain, by rw [hmain]; rfl⟩

/-- C7, witness: the 404 at a host whose active worksheet has no used
range. -/
theorem c7_no_data_404_witness :
    resolveWorksheetChain (some appBlank) reqDemo.workbook reqDemo.sheet =
      .ok (wbBlank, wsBlank) ∧
    (wsBlank.usedRange = none ∨
      (∃ ur, wsBlank.usedRange = some ur ∧ ur.df = none) ∨
      (∃ ur df, wsBlank.usedRange = some ur ∧ ur.df = some df ∧
        df.empty = true)) ∧
    (get_excel_data (some appBlank) reqDemo =
        .fail 404 "No data found in worksheet" ∧
      (get_excel_data (some appBlank) reqDemo).status = 404) :=
  ⟨rfl, Or.inl rfl,
    c7_no_data_404 (some appBlank) reqDemo wbBlank wsBlank rfl (Or.inl rfl)⟩

/-- C1: once the body carries an `operations` list and resolution of
application, workbook and worksheet succeeds, `POST /api/write-excel`
responds 200 with one result per input operation in input order, where
the result at each position (and the set of writes attempted for it)
is a function of that operation and the worksheet alone — so the
failure of any operation leaves the processing and the result entries
of every other operation unchanged. -/
theorem c1_batch_results (excelApp? : Option ExcelApp) (body : WriteBody)
    (ops : List Operation) (wb : Workbook) (ws : Worksheet)
    (hops : body.operations = some ops)
    (hres : resolveWorksheetChain excelApp? body.workbook body.sheet =
      .ok (wb, ws)) :
    (write_excel_data excelApp? (some body)).1.status = 200 ∧
    (write_excel_data excelApp? (some body)).1 =
      .ok (ops.map fun op => (processOperation ws op).1) ∧
    (write_excel_data excelApp? (some body)).2 =
      ops.flatMap (fun op => (processOperation ws op).2) ∧
    ∀ results, (write_excel_data excelApp? (some body)).1 = .ok results →
      results.length = ops.length ∧
      ∀ i (hi : i < ops.length) (hri : i < results.length),
        results.get ⟨i, hri⟩ = (processOperation ws (ops.get ⟨i, hi⟩)).1 := by
  have hfalsy : (body.falsy || body.operations.isNone) = false := by
    simp [WriteBody.falsy, hops]
  have hmain : write_excel_data excelApp? (some body) =
      (.ok (ops.map fun op => (processOperation ws op).1),
        ops.flatMap (fun op => (processOperation ws op).2)) := by
    have hnb : ¬ ((body.falsy || body.operations.isNone) = true) := by
      simp [hfalsy]
    simp only [write_excel_data]
    rw [if_neg hnb]
    rw [hops, hres]
    dsimp only [Option.getD]
  refine ⟨by rw [hmain]; rfl, by rw [hmain], by rw [hmain], ?_⟩
  intro results hr
  rw [hmain] at hr
  dsimp only at hr
  injection hr with h
  subst h
  refine ⟨by simp, ?_⟩
  intro i hi hri
  simp [List.get_eq_getElem, List.getElem_map]

/-- C1, witness: a batch of one valid `write_cell` and one bogus
operation against the concrete host: two results, in order, each
depending only on its own operation. -/
theorem c1_batch_results_witness :
    writeBodyDemo.operations = some [opWriteCell, opBogus] ∧
    resolveWorksheetChain (some appDemo) writeBodyDemo.workbook
      writeBodyDemo.sheet = .ok (wbDemo, wsDemo) ∧
    ((write_excel_data (some appDemo) (some writeBodyDemo)).1.status = 200 ∧
      (write_excel_data (some appDemo) (some writeBodyDemo)).1 =
        .ok ([opWriteCell, opBogus].map fun op =>
          (processOperation wsDemo op).1) ∧
      (write_excel_data (some appDemo) (some writeBodyDemo)).2 =
        [opWriteCell, opBogus].flatMap
          (fun op => (processOperation wsDemo op).2) ∧
      ∀ results,
        (write_excel_data (some appDemo) (some writeBodyDemo)).1 =
          .ok results →
        results.length = [opWriteCell, opBogus].length ∧
        ∀ i (hi : i < [opWriteCell, opBogus].length)
          (hri : i < results.length),
          results.get ⟨i, hri⟩ =
            (processOperation wsDemo ([opWriteCell, opBogus].get ⟨i, hi⟩)).1) :=
  ⟨rfl, rfl,
    c1_batch_results (some appDemo) writeBodyDemo [opWriteCell, opBogus]
      wbDemo wsDemo rfl rfl⟩

/-- C2, counterexample: a `write_cell` operation whose `value` field is
absent is not rejected — the handler only validates `cell` — so the
write is attempted with Python `None` and, when it succeeds, a success
record naming the value `None` is appended, contradicting the claim
that a missing `value` yields an error record and no write attempt. -/
theorem c2_counterexample :
    opCellNoValue.type = some "write_cell" ∧ opCellNoValue.value = none ∧
    processOperation wsDemo opCellNoValue =
      (.success "Written \x27None\x27 to cell A1", [("A1", .scalar none)]) :=
  ⟨rfl, rfl, rfl⟩

/-- C2 (amended): a `write_cell` operation requires only the `cell`
field: on a falsy `cell` an error record is appended and no write is
attempted; on a present `cell` the write is attempted with the
operation's `value` (Python `None` when the field is absent), a
successful write appends a success record naming the cell and the
value written, and a raising write appends a per-operation error
record. -/
theorem c2_write_cell_amended (ws : Worksheet) (op : Operation)
    (htype : op.type = some "write_cell") :
    (optTruthy op.cell = false →
      processOperation ws op =
        (.error "Cell address required for write_cell operation", [])) ∧
    ∀ c, op.cell = some c → optTruthy op.cell = true →
      (processOperation ws op).2 = [(c, .scalar op.value)] ∧
      (ws.rangeWrite c (.scalar op.value) = none →
        (processOperation ws op).1 =
          .success ("Written \x27" ++ optValueStr op.value ++
            "\x27 to cell " ++ c)) ∧
      ∀ e, ws.rangeWrite c (.scalar op.value) = some e →
        (processOperation ws op).1 =
          .error ("Failed to write to cell " ++ c ++ ": " ++ e) := by
  have hbe : (op.type == some "write_cell") = true := by
    simp [htype]
  constructor
  · intro hcell
    have hcc : (!optTruthy op.cell) = true := by
      rw [hcell]
      rfl
    unfold processOperation
    dsimp only
    rw [if_pos hbe, if_pos hcc]
  · intro c hc htruthy
    have hmain : processOperation ws op =
        match ws.rangeWrite c (.scalar op.value) with
        | none =>
          (.success ("Written \x27" ++ optValueStr op.value ++
            "\x27 to cell " ++ c), [(c, .scalar op.value)])
        | some e =>
          (.error ("Failed to write to cell " ++ c ++ ": " ++ e),
            [(c, .scalar op.value)]) := by
      have hnc : ¬ ((!optTruthy op.cell) = true) := by
        simp [htruthy]
      unfold processOperation
      dsimp only
      rw [if_pos hbe, if_neg hnc, hc]
      dsimp only [Option.getD]
    refine ⟨?_, ?_, ?_⟩
    · rw [hmain]
      cases ws.rangeWrite c (.scalar op.value) <;> rfl
    · intro hw
      rw [hmain, hw]
    · intro e hw
      rw [hmain, hw]

/-- C2, witness: the amended contract applied to the value-less
operation on the concrete worksheet. -/
theorem c2_write_cell_amended_witness :
    opCellNoValue.type = some "write_cell" ∧
    ((optTruthy opCellNoValue.cell = false →
      processOperation wsDemo opCellNoValue =
        (.error "Cell address required for write_cell operation", [])) ∧
    ∀ c, opCellNoValue.cell = some c → optTruthy opCellNoValue.cell = true →
      (processOperation wsDemo opCellNoValue).2 =
        [(c, .scalar opCellNoValue.value)] ∧
      (wsDemo.rangeWrite c (.scalar opCellNoValue.value) = none →
        (processOperation wsDemo opCellNoValue).1 =
          .success ("Written \x27" ++ optValueStr opCellNoValue.value ++
            "\x27 to cell " ++ c)) ∧
      ∀ e, wsDemo.rangeWrite c (.scalar opCellNoValue.value) = some e →
        (processOperation wsDemo opCellNoValue).1 =
          .error ("Failed to write to cell " ++ c ++ ": " ++ e)) :=
  ⟨rfl, c2_write_cell_amended wsDemo opCellNoValue rfl⟩

/-- C10: a body whose `operations` key holds the empty list passes the
missing-operations check; once resolution succeeds the handler responds
200 with an empty `results` list and attempts no write. -/
theorem c10_empty_operations (excelApp? : Option ExcelApp)
    (body : WriteBody) (wb : Workbook) (ws : Worksheet)
    (hops : body.operations = some [])
    (hres : resolveWorksheetChain excelApp? body.workbook body.sheet =
      .ok (wb, ws)) :
    write_excel_data excelApp? (some body) = (.ok [], []) ∧
    (write_excel_data excelApp? (some body)).1.status = 200 := by
  have hfalsy : (body.falsy || body.operations.isNone) = false := by
    simp [WriteBody.falsy, hops]
  have hmain : write_excel_data excelApp? (some body) = (.ok [], []) := by
    have hnb : ¬ ((body.falsy || body.operations.isNone) = true) := by
      simp [hfalsy]
    simp only [write_excel_data]
    rw [if_neg hnb]
    rw [hops, hres]
    rfl
  exact ⟨hmain, by rw [hmain]; rfl⟩

/-- C10, witness: the empty batch against the concrete host. -/
theorem c10_empty_operations_witness :
    writeBodyEmptyOps.operations = some [] ∧
    resolveWorksheetChain (some appDemo) writeBodyEmptyOps.workbook
      writeBodyEmptyOps.sheet = .ok (wbDemo, wsDemo) ∧
    (write_excel_data (some appDemo) (some writeBodyEmptyOps) =
        (.ok [], []) ∧
      (write_excel_data (some appDemo) (some writeBodyEmptyOps)).1.status =
        200) :=
  ⟨rfl, rfl,
    c10_empty_operations (some appDemo) writeBodyEmptyOps wbDemo wsDemo
      rfl rfl⟩

end ExcelApi
